import Mathlib

/-!
Verification of the SoilSense fertilizer-recommendation core.

The definitions below are a shallow embedding of the repository's Python
modules `backend/ml/fertilizer_engine.py`, `backend/ml/fertilizer_prices.py`,
`backend/ml/soil_improvement.py`, `backend/ml/crop_schedules.py` and the
price-resolution part of `backend/routes/recommendations.py`.

Machine floats are modelled by exact rationals (ℚ); Python's `round(x, 2)`
is modelled by rounding `x * 100` half-to-even (Python's rounding mode) and
dividing by 100; `int(x)` is truncation toward zero; `math.ceil` is ⌈·⌉.
Optional (possibly-`None`) arguments are `Option ℚ`.
-/

namespace SoilSense

/-- Round a rational to the nearest integer, ties to even
(the rounding mode of Python's builtin `round`). -/
def roundHalfEven (q : ℚ) : ℤ :=
  if q - ⌊q⌋ < 1 / 2 then ⌊q⌋
  else if 1 / 2 < q - ⌊q⌋ then ⌊q⌋ + 1
  else if ⌊q⌋ % 2 = 0 then ⌊q⌋ else ⌊q⌋ + 1

/-- Python's `round(x, 2)`: round to two decimal places. -/
def round2 (q : ℚ) : ℚ := (roundHalfEven (q * 100) : ℚ) / 100

/-- Python's `int(x)`: truncation toward zero. -/
def pyInt (q : ℚ) : ℤ := if 0 ≤ q then ⌊q⌋ else -⌊-q⌋

/-! ## String helpers

Python's string operations `startswith`, `in` (substring test), `lower`,
`strip` and `split('(')[0]` are modelled directly on the character lists of
Lean strings, so that they compute by plain structural recursion. -/

/-- Boolean prefix test on character lists. -/
def isPrefixOfCh : List Char → List Char → Bool
  | [], _ => true
  | _ :: _, [] => false
  | a :: as, b :: bs => a == b && isPrefixOfCh as bs

/-- Python's `s.startswith(pre)`. -/
def pyStartswith (s pre : String) : Bool := isPrefixOfCh pre.toList s.toList

/-- Substring occurrence test on character lists. -/
def containsSub : List Char → List Char → Bool
  | [], pat => isPrefixOfCh pat []
  | c :: rest, pat => isPrefixOfCh pat (c :: rest) || containsSub rest pat

/-- Python's `pat in s` on strings. -/
def pyContains (s pat : String) : Bool := containsSub s.toList pat.toList

/-- ASCII lower-casing of one character (what Python's `str.lower` does on
the ASCII strings this codebase dispatches on). -/
def pyLowerChar (c : Char) : Char :=
  if 'A' ≤ c ∧ c ≤ 'Z' then Char.ofNat (c.toNat + 32) else c

/-- Python's `s.lower()`. -/
def pyLower (s : String) : String := ⟨s.data.map pyLowerChar⟩

/-- ASCII whitespace test, for Python's `str.strip`. -/
def isSpaceCh (c : Char) : Bool :=
  c == ' ' || c == '\t' || c == '\n' || c == '\r'

/-- Python's `s.strip()`: drop leading and trailing whitespace. -/
def pyStrip (s : String) : String :=
  ⟨(((s.data.dropWhile isSpaceCh).reverse.dropWhile isSpaceCh).reverse : List Char)⟩

/-! ## Fertilizer catalog (`fertilizer_engine.py`, lines 8-31) -/

/-- Fertilizer product specification (class `Fertilizer`).
Percentages are stored as fractions, as in the Python constructor. -/
structure Fertilizer where
  name : String
  n_percent : ℚ
  p_percent : ℚ
  k_percent : ℚ
  cost_per_kg : ℚ
deriving DecidableEq

/-- The `Fertilizer.__init__` constructor: divides the percent arguments
by 100. -/
def mkFertilizer (name : String) (n_percent p_percent k_percent cost_per_kg : ℚ) :
    Fertilizer :=
  { name := name
    n_percent := n_percent / 100
    p_percent := p_percent / 100
    k_percent := k_percent / 100
    cost_per_kg := cost_per_kg }

/-- The static catalog `FERTILIZERS`. -/
def FERTILIZERS : List Fertilizer :=
  [ mkFertilizer "Urea" 46 0 0 6
  , mkFertilizer "DAP (Diammonium Phosphate)" 18 46 0 27
  , mkFertilizer "MOP (Muriate of Potash)" 0 0 60 17
  , mkFertilizer "SSP (Single Super Phosphate)" 0 16 0 8
  , mkFertilizer "NPK 10-26-26" 10 26 26 22
  , mkFertilizer "NPK 12-32-16" 12 32 16 24
  , mkFertilizer "NPK 14-35-14" 14 35 14 25
  , mkFertilizer "NPK 17-17-17" 17 17 17 20
  , mkFertilizer "NPK 19-19-19" 19 19 19 21
  , mkFertilizer "NPK 20-20-0-13" 20 20 0 18
  , mkFertilizer "NPK 28-28-0" 28 28 0 23 ]

/-- `next(f for f in FERTILIZERS if f.name.startswith( "DAP"))`.
The catalog provably contains the element, so the `getD` default is inert. -/
def dapProduct : Fertilizer :=
  (FERTILIZERS.find? (fun f => pyStartswith f.name "DAP")).getD (mkFertilizer "" 0 0 0 0)

/-- `next(f for f in FERTILIZERS if f.name.startswith( "MOP"))`. -/
def mopProduct : Fertilizer :=
  (FERTILIZERS.find? (fun f => pyStartswith f.name "MOP")).getD (mkFertilizer "" 0 0 0 0)

/-- `next(f for f in FERTILIZERS if f.name == "Urea")`. -/
def ureaProduct : Fertilizer :=
  (FERTILIZERS.find? (fun f => f.name == "Urea")).getD (mkFertilizer "" 0 0 0 0)

/-! ## Allocation engine (`recommend_fertilizers`, lines 38-130) -/

/-- One entry of the `recommendations` list built by `recommend_fertilizers`.
The free-text `provides` field (a formatted human-readable string) is not
modelled; every numeric field of the Python dict is. -/
structure LineItem where
  fertilizer : String
  quantity_kg_per_hectare : ℚ
  quantity_kg_per_acre : ℚ
  quantity_total : ℚ
  cost : ℚ
deriving DecidableEq

/-- Kilograms of DAP needed for a given phosphorus requirement
(line 71 of `fertilizer_engine.py`). -/
def dap_needed_kg (required_p : ℚ) : ℚ := required_p / dapProduct.p_percent

/-- Nitrogen contributed by the DAP quantity (line 72). -/
def n_from_dap (required_p : ℚ) : ℚ := dap_needed_kg required_p * dapProduct.n_percent

/-- Nitrogen still owed after step 1: the DAP branch subtracts `n_from_dap`
from `n_remaining` (lines 64, 84); if the branch is skipped it stays at
`required_n`. -/
def n_after_dap (required_n required_p : ℚ) : ℚ :=
  if 0 < required_p then required_n - n_from_dap required_p else required_n

/-- `_get_application_timing` (lines 132-147). -/
def get_application_timing (n p k : ℚ) : String :=
  let timing :=
    (if 0 < p ∨ 0 < k then
      [ "**Basal Application** (at sowing/planting): Apply all DAP and MOP"]
    else []) ++
    (if 0 < n then
      [ "**Basal Application** (at sowing): 25-30% of Urea"
      , "**First Top Dressing** (3-4 weeks after sowing): 35-40% of Urea"
      , "**Second Top Dressing** (6-7 weeks after sowing): 30-35% of Urea" ]
    else [])
  String.intercalate " | " timing

/-- `_get_application_method` (lines 149-165): a fixed static string
(reproduced here already stripped, as `.strip()` returns it). -/
def get_application_method : String :=
  "**Application Methods:**\n- **Broadcasting**: Spread fertilizer evenly before final plowing\n- **Drilling**: Place fertilizer in rows 5-7 cm deep alongside seeds\n- **Band Placement**: Apply in bands 5 cm away from plant rows\n- **Top Dressing**: Broadcast nitrogen fertilizer and irrigate immediately\n\n**Important Notes:**\n- Apply fertilizers on moist soil\n- Incorporate fertilizers into soil to prevent loss\n- Avoid direct contact with seeds\n- Irrigate after top dressing to activate nutrients"

/-- The dictionary returned by `recommend_fertilizers`. -/
structure EngineResult where
  fertilizers : List LineItem
  total_cost : ℚ
  application_timing : String
  application_method : String
deriving DecidableEq

/-- `FertilizerRecommendationEngine.recommend_fertilizers` (lines 38-130).
Step 1 uses DAP for phosphorus (also contributing nitrogen), step 2 uses MOP
for potassium, step 3 uses Urea for the remaining nitrogen; each step that
runs appends one line item and adds its unrounded cost to the running total. -/
def recommend_fertilizers (required_n required_p required_k : ℚ)
    (field_area_hectares : ℚ) : EngineResult :=
  let dapStep : List LineItem × ℚ :=
    if 0 < required_p then
      let dap_needed := dap_needed_kg required_p
      ( [ { fertilizer := "DAP (Diammonium Phosphate)"
          , quantity_kg_per_hectare := round2 dap_needed
          , quantity_kg_per_acre := round2 (dap_needed * (4047 / 10000))
          , quantity_total := round2 (dap_needed * field_area_hectares)
          , cost := round2 (dap_needed * dapProduct.cost_per_kg) } ]
      , dap_needed * dapProduct.cost_per_kg )
    else ([], 0)
  let n_remaining := n_after_dap required_n required_p
  let mopStep : List LineItem × ℚ :=
    if 0 < required_k then
      let mop_needed := required_k / mopProduct.k_percent
      ( [ { fertilizer := "MOP (Muriate of Potash)"
          , quantity_kg_per_hectare := round2 mop_needed
          , quantity_kg_per_acre := round2 (mop_needed * (4047 / 10000))
          , quantity_total := round2 (mop_needed * field_area_hectares)
          , cost := round2 (mop_needed * mopProduct.cost_per_kg) } ]
      , mop_needed * mopProduct.cost_per_kg )
    else ([], 0)
  let ureaStep : List LineItem × ℚ :=
    if 0 < n_remaining then
      let urea_needed := n_remaining / ureaProduct.n_percent
      ( [ { fertilizer := "Urea"
          , quantity_kg_per_hectare := round2 urea_needed
          , quantity_kg_per_acre := round2 (urea_needed * (4047 / 10000))
          , quantity_total := round2 (urea_needed * field_area_hectares)
          , cost := round2 (urea_needed * ureaProduct.cost_per_kg) } ]
      , urea_needed * ureaProduct.cost_per_kg )
    else ([], 0)
  { fertilizers := dapStep.1 ++ mopStep.1 ++ ureaStep.1
    total_cost := round2 (dapStep.2 + mopStep.2 + ureaStep.2)
    application_timing := get_application_timing required_n required_p required_k
    application_method := get_application_method }

/-! ## Verified government price table (`fertilizer_prices.py`, lines 7-67) -/

/-- One value of the `FERTILIZER_PRICES_INR` dictionary. -/
structure PriceEntry where
  price_per_50kg : ℚ
  npk_composition : String
  nitrogen_percent : ℚ
  phosphorus_percent : ℚ
  potassium_percent : ℚ
deriving DecidableEq

/-- The `FERTILIZER_PRICES_INR` dictionary, as an association list in the
source's insertion order. -/
def FERTILIZER_PRICES_INR : List (String × PriceEntry) :=
  [ ( "Urea", { price_per_50kg := 266, npk_composition := "46-0-0", nitrogen_percent := 46, phosphorus_percent := 0, potassium_percent := 0 })
  , ( "DAP", { price_per_50kg := 1350, npk_composition := "18-46-0", nitrogen_percent := 18, phosphorus_percent := 46, potassium_percent := 0 })
  , ( "MOP", { price_per_50kg := 1700, npk_composition := "0-0-60", nitrogen_percent := 0, phosphorus_percent := 0, potassium_percent := 60 })
  , ( "NPK 10:26:26", { price_per_50kg := 1450, npk_composition := "10-26-26", nitrogen_percent := 10, phosphorus_percent := 26, potassium_percent := 26 })
  , ( "NPK 12:32:16", { price_per_50kg := 1500, npk_composition := "12-32-16", nitrogen_percent := 12, phosphorus_percent := 32, potassium_percent := 16 })
  , ( "NPK 17:17:17", { price_per_50kg := 1425, npk_composition := "17-17-17", nitrogen_percent := 17, phosphorus_percent := 17, potassium_percent := 17 })
  , ( "NPK 20:20:0:13", { price_per_50kg := 1200, npk_composition := "20-20-0-13", nitrogen_percent := 20, phosphorus_percent := 20, potassium_percent := 0 })
  , ( "SSP", { price_per_50kg := 450, npk_composition := "0-16-0", nitrogen_percent := 0, phosphorus_percent := 16, potassium_percent := 0 }) ]

/-- Dictionary lookup `FERTILIZER_PRICES_INR[name]` /
`name in FERTILIZER_PRICES_INR`. -/
def lookupPrice (name : String) : Option PriceEntry :=
  (FERTILIZER_PRICES_INR.find? (fun e => e.1 == name)).map (fun e => e.2)

/-! ## Price resolution and cost recalculation
(`routes/recommendations.py`, lines 137-185) -/

/-- Either a numeric price or the unavailability sentinel string: the Python
code stores a number in `fert['price_per_50kg']` for verified items and a
string for unverified ones. -/
inductive PriceField where
  | num (value : ℚ)
  | text (s : String)
deriving DecidableEq

/-- A line item after the repricing loop (dict fields added by the loop or
by the biofertilizer branch). -/
structure PricedItem where
  fertilizer : String
  quantity_kg_per_hectare : ℚ
  quantity_kg_per_acre : ℚ
  quantity_total : ℚ
  price_per_50kg : PriceField
  cost : ℚ
  is_verified : Bool
  note : Option String
  application_stage : Option String
deriving DecidableEq

/-- `fert['fertilizer'].split('(')[0].strip()` (line 144): characters
before the first opening parenthesis, with surrounding whitespace stripped. -/
def baseName (s : String) : String :=
  pyStrip ⟨s.data.takeWhile (fun c => c != '(')⟩

/-- `math.ceil(fert['quantity_total'] / 50)` (line 150). -/
def bags_required (quantity_total : ℚ) : ℤ := ⌈quantity_total / 50⌉

/-- One iteration of the repricing loop (lines 143-163) applied to one line
item. Engine line items always carry `quantity_total`, so the
`'quantity_total' not in fert` recovery branch (lines 147-148) never runs
and is not modelled. -/
def repriceItem (item : LineItem) : PricedItem :=
  match lookupPrice (baseName item.fertilizer) with
  | some entry =>
      { fertilizer := item.fertilizer
        quantity_kg_per_hectare := item.quantity_kg_per_hectare
        quantity_kg_per_acre := item.quantity_kg_per_acre
        quantity_total := item.quantity_total
        price_per_50kg := PriceField.num entry.price_per_50kg
        cost := (bags_required item.quantity_total : ℚ) * entry.price_per_50kg
        is_verified := true
        note := none
        application_stage := none }
  | none =>
      { fertilizer := item.fertilizer
        quantity_kg_per_hectare := item.quantity_kg_per_hectare
        quantity_kg_per_acre := item.quantity_kg_per_acre
        quantity_total := item.quantity_total
        price_per_50kg := PriceField.text "Govt. price not available"
        cost := 0
        is_verified := false
        note := some "Price not verified by Govt of India"
        application_stage := none }

/-- The amount one loop iteration adds to `recalculated_total_cost`
(line 157): the item's cost when the price was found, nothing otherwise. -/
def repriceContribution (item : LineItem) : ℚ :=
  match lookupPrice (baseName item.fertilizer) with
  | some entry => (bags_required item.quantity_total : ℚ) * entry.price_per_50kg
  | none => 0

/-- One iteration of the repricing loop acting on the accumulated state
(list written so far, running total). -/
def repriceStep (acc : List PricedItem × ℚ) (item : LineItem) : List PricedItem × ℚ :=
  (acc.1 ++ [repriceItem item], acc.2 + repriceContribution item)

/-- The whole repricing loop: repriced items plus
`recalculated_total_cost`. -/
def repriceItems (items : List LineItem) : List PricedItem × ℚ :=
  items.foldl repriceStep ([], 0)

/-- The Scenario F line item: a fertilizer name absent from the verified
price table. -/
def scenario_f_item : LineItem :=
  { fertilizer := "NPK 29-5-5"
    quantity_kg_per_hectare := 100
    quantity_kg_per_acre := 4047 / 100
    quantity_total := 100
    cost := 0 }

/-- `soil_data.organic_carbon is not None and soil_data.organic_carbon < 0.75`
(line 167). -/
def biofertilizer_needed (organic_carbon : Option ℚ) : Bool :=
  match organic_carbon with
  | some oc => decide (oc < 3 / 4)
  | none => false

/-- The biofertilizer line item appended at lines 172-182. -/
def biofertilizer_item (field_area : ℚ) : PricedItem :=
  { fertilizer := "Biofertilizer (Rhizobium/Azotobacter)"
    quantity_kg_per_hectare := 2
    quantity_kg_per_acre := 81 / 100
    quantity_total := 2 * field_area
    price_per_50kg := PriceField.text "Govt. price not available"
    cost := 0
    is_verified := false
    note := none
    application_stage := some "Seed Treatment" }

/-- Lines 141-185 of `generate_recommendation`: reprice every line item,
conditionally append the biofertilizer item, and return the final item list,
the recalculated total cost (written into `total_cost` at line 185) and the
`biofertilizer_recommended` flag. -/
def price_resolution (field_area : ℚ) (organic_carbon : Option ℚ)
    (items : List LineItem) : List PricedItem × ℚ × Bool :=
  let repriced := repriceItems items
  let withBio :=
    if biofertilizer_needed organic_carbon then
      repriced.1 ++ [biofertilizer_item field_area]
    else repriced.1
  (withBio, repriced.2, biofertilizer_needed organic_carbon)

/-! ## Soil improvement advisor (`soil_improvement.py`) -/

/-- One advisory record: dict with keys issue / recommendation / quantity /
purpose. -/
structure SoilImprovement where
  issue : String
  recommendation : String
  quantity : String
  purpose : String
deriving DecidableEq

/-- `calculate_lime_requirement` (lines 99-114). -/
def calculate_lime_requirement (ph : ℚ) : ℤ :=
  let ph_increase_needed := 13 / 2 - ph
  if ph_increase_needed ≤ 0 then 0
  else min (max (pyInt (ph_increase_needed * 1000)) 500) 3000

/-- `calculate_gypsum_requirement` (lines 117-131). -/
def calculate_gypsum_requirement (ph : ℚ) : ℤ :=
  if ph ≤ 15 / 2 then 0
  else if 17 / 2 < ph then 750
  else if 8 < ph then 500
  else 350

/-- The acidic-soil record appended when `ph < 5.5` (lines 25-33). -/
def lime_improvement (ph : ℚ) : SoilImprovement :=
  { issue := "Acidic Soil (pH < 5.5)"
    recommendation := "Agricultural Lime (CaCO₃)"
    quantity := toString (calculate_lime_requirement ph) ++ " kg/ha"
    purpose := "Raise pH to neutral range (6.0-7.0), improve nutrient availability" }

/-- The alkaline-soil record appended when `ph > 7.5` (lines 34-42). -/
def gypsum_improvement (ph : ℚ) : SoilImprovement :=
  { issue := "Alkaline Soil (pH > 7.5)"
    recommendation := "Gypsum (CaSO₄·2H₂O)"
    quantity := toString (calculate_gypsum_requirement ph) ++ " kg/ha"
    purpose := "Lower pH, improve phosphorus availability, reduce sodicity" }

/-- The salinity record (lines 45-51). -/
def salinity_improvement : SoilImprovement :=
  { issue := "High Salinity (EC > 2.0 dS/m)"
    recommendation := "Gypsum + Leaching"
    quantity := "500-750 kg/ha + 7.5cm irrigation"
    purpose := "Displace sodium, improve soil structure, leach excess salts" }

/-- The low-organic-matter record (lines 54-60). -/
def low_oc_improvement : SoilImprovement :=
  { issue := "Low Organic Matter (OC < 0.5%)"
    recommendation := "Farmyard Manure (FYM) or Compost"
    quantity := "8-10 tonnes/ha"
    purpose := "Improve soil structure, water retention, microbial activity" }

/-- The moderate-organic-matter record (lines 61-67). -/
def moderate_oc_improvement : SoilImprovement :=
  { issue := "Moderate Organic Matter"
    recommendation := "Farmyard Manure (FYM) or Vermicompost"
    quantity := "5-7 tonnes/ha"
    purpose := "Maintain soil health, enhance nutrient cycling" }

/-- The very-low-phosphorus record (lines 70-76). -/
def low_p_improvement : SoilImprovement :=
  { issue := "Very Low Phosphorus"
    recommendation := "Rock Phosphate or Bone Meal"
    quantity := "300-400 kg/ha"
    purpose := "Long-term P availability, especially in acidic soils" }

/-- The green-manure record appended when at least two improvements have
accumulated (lines 79-85). -/
def green_manure_improvement : SoilImprovement :=
  { issue := "Multiple Soil Health Issues"
    recommendation := "Green Manure (Dhaincha/Sunhemp)"
    quantity := "20-25 kg seed/ha"
    purpose := "Add organic matter, fix nitrogen, break pest cycles" }

/-- The fallback maintenance record (lines 88-94). -/
def maintenance_improvement : SoilImprovement :=
  { issue := "Soil Health Maintenance"
    recommendation := "Farmyard Manure (FYM)"
    quantity := "3-5 tonnes/ha"
    purpose := "Maintain optimal soil conditions, sustained productivity" }

/-- Python truthiness of `ec and ec > 2.0` (line 45): `None` and `0.0` are
falsy, so the rule fires only for a known nonzero `ec` above 2. -/
def ecTriggers : Option ℚ → Bool
  | none => false
  | some e => decide (¬e = 0 ∧ 2 < e)

/-- The threshold rules of `get_soil_improvements` evaluated before the
green-manure rule (lines 22-76), in source order: pH rule, salinity rule,
organic-carbon rule, phosphorus rule. -/
def threshold_improvements (ph : ℚ) (ec organic_carbon phosphorus : Option ℚ) :
    List SoilImprovement :=
  (if ph < 11 / 2 then [lime_improvement ph]
   else if 15 / 2 < ph then [gypsum_improvement ph]
   else []) ++
  (if ecTriggers ec then [salinity_improvement] else []) ++
  (match organic_carbon with
   | some oc =>
       if oc < 1 / 2 then [low_oc_improvement]
       else if 1 / 2 ≤ oc ∧ oc < 3 / 4 then [moderate_oc_improvement]
       else []
   | none => []) ++
  (match phosphorus with
   | some p => if p < 10 then [low_p_improvement] else []
   | none => [])

/-- `get_soil_improvements` (lines 8-96). The `nitrogen` and `potassium`
parameters are accepted and ignored, as in the source. -/
def get_soil_improvements (ph : ℚ)
    (ec organic_carbon nitrogen phosphorus potassium : Option ℚ) :
    List SoilImprovement :=
  let improvements := threshold_improvements ph ec organic_carbon phosphorus
  let improvements :=
    if 2 ≤ improvements.length then improvements ++ [green_manure_improvement]
    else improvements
  if improvements = [] then [maintenance_improvement] else improvements

/-! ## Crop application scheduler (`crop_schedules.py`) -/

/-- One application stage dict. -/
structure ApplicationStage where
  stage : String
  time : String
  fertilizer : String
  quantity_percent : ℚ
  note : String
deriving DecidableEq

/-- `get_rice_schedule` (lines 37-61). -/
def get_rice_schedule : List ApplicationStage :=
  [ { stage := "Basal (At transplanting)", time := "Day 0"
    , fertilizer := "DAP + MOP", quantity_percent := 100
    , note := "Apply 1 day before transplanting" }
  , { stage := "First Top Dressing", time := "20-25 days after transplanting"
    , fertilizer := "Urea", quantity_percent := 50
    , note := "Apply during active tillering stage" }
  , { stage := "Second Top Dressing", time := "40-45 days after transplanting"
    , fertilizer := "Urea", quantity_percent := 50
    , note := "Apply before panicle initiation" } ]

/-- `get_wheat_schedule` (lines 64-88). -/
def get_wheat_schedule : List ApplicationStage :=
  [ { stage := "Basal (At sowing)", time := "Day 0"
    , fertilizer := "DAP + MOP + Urea (33%)", quantity_percent := 33
    , note := "Apply with seed drill or broadcast before sowing" }
  , { stage := "Crown Root Initiation", time := "21 days after sowing"
    , fertilizer := "Urea", quantity_percent := 33
    , note := "First irrigation + fertilizer application" }
  , { stage := "Late Jointing/Booting", time := "40-45 days after sowing"
    , fertilizer := "Urea", quantity_percent := 34
    , note := "Second irrigation + final N application" } ]

/-- `get_maize_schedule` (lines 91-115). -/
def get_maize_schedule : List ApplicationStage :=
  [ { stage := "Basal (At sowing)", time := "Day 0"
    , fertilizer := "DAP + MOP", quantity_percent := 100
    , note := "Apply 5-7cm below and beside seed" }
  , { stage := "Knee-High Stage", time := "25-30 days after sowing"
    , fertilizer := "Urea", quantity_percent := 50
    , note := "Side dress before first irrigation" }
  , { stage := "Pre-Tasseling", time := "45-50 days after sowing"
    , fertilizer := "Urea", quantity_percent := 50
    , note := "Apply before flowering for good cob development" } ]

/-- `get_cotton_schedule` (lines 118-142). -/
def get_cotton_schedule : List ApplicationStage :=
  [ { stage := "Basal (At sowing)", time := "Day 0"
    , fertilizer := "DAP + MOP + Urea (25%)", quantity_percent := 25
    , note := "Apply in furrows before sowing" }
  , { stage := "Square Formation", time := "30-35 days after sowing"
    , fertilizer := "Urea", quantity_percent := 75 / 2
    , note := "Apply with first irrigation" }
  , { stage := "Flowering Stage", time := "60-65 days after sowing"
    , fertilizer := "Urea", quantity_percent := 75 / 2
    , note := "Apply during peak flowering" } ]

/-- `get_sugarcane_schedule` (lines 145-169). -/
def get_sugarcane_schedule : List ApplicationStage :=
  [ { stage := "Basal (At planting)", time := "Day 0"
    , fertilizer := "DAP + MOP", quantity_percent := 100
    , note := "Apply in furrows, mix with soil" }
  , { stage := "Tillering Stage", time := "30-40 days after planting"
    , fertilizer := "Urea", quantity_percent := 50
    , note := "Apply and earthing up" }
  , { stage := "Grand Growth", time := "90-120 days after planting"
    , fertilizer := "Urea", quantity_percent := 50
    , note := "Apply before rapid cane elongation" } ]

/-- `get_potato_schedule` (lines 172-196). -/
def get_potato_schedule : List ApplicationStage :=
  [ { stage := "Basal (At planting)", time := "Day 0"
    , fertilizer := "DAP + MOP + Urea (33%)", quantity_percent := 33
    , note := "Apply in furrows, cover with soil" }
  , { stage := "Earthing Up", time := "25-30 days after planting"
    , fertilizer := "Urea", quantity_percent := 33
    , note := "Apply and earth up ridges" }
  , { stage := "Tuber Bulking", time := "45-50 days after planting"
    , fertilizer := "Urea + MOP", quantity_percent := 34
    , note := "Final application for tuber development" } ]

/-- `get_tomato_schedule` (lines 199-223). -/
def get_tomato_schedule : List ApplicationStage :=
  [ { stage := "Basal (Before transplanting)", time := "Day -1"
    , fertilizer := "DAP + MOP", quantity_percent := 100
    , note := "Apply and incorporate into beds" }
  , { stage := "Vegetative Growth", time := "15-20 days after transplanting"
    , fertilizer := "Urea", quantity_percent := 33
    , note := "Apply around plants, avoid stem contact" }
  , { stage := "Flowering & Fruiting", time := "35-40 days after transplanting"
    , fertilizer := "Urea", quantity_percent := 67
    , note := "Split into 2 applications during fruit development" } ]

/-- `get_default_schedule` (lines 226-250): fallback for crops not in the
explicit list. -/
def get_default_schedule : List ApplicationStage :=
  [ { stage := "Basal (At sowing/planting)", time := "Day 0"
    , fertilizer := "DAP + MOP", quantity_percent := 100
    , note := "Apply before or at planting" }
  , { stage := "First Top Dressing", time := "3-4 weeks after planting"
    , fertilizer := "Urea", quantity_percent := 50
    , note := "Apply during active vegetative growth" }
  , { stage := "Second Top Dressing", time := "6-7 weeks after planting"
    , fertilizer := "Urea", quantity_percent := 50
    , note := "Apply before flowering/fruiting" } ]

/-- `get_application_schedule` (lines 8-34): case-insensitive substring
dispatch on the crop name; `total_n`, `total_p`, `total_k` are accepted and
never read, as in the source. -/
def get_application_schedule (crop_name : String)
    (total_n total_p total_k : ℚ) : List ApplicationStage :=
  let crop_lower := pyLower crop_name
  if pyContains crop_lower "rice" || pyContains crop_lower "paddy" then
    get_rice_schedule
  else if pyContains crop_lower "wheat" then get_wheat_schedule
  else if pyContains crop_lower "maize" || pyContains crop_lower "corn" then
    get_maize_schedule
  else if pyContains crop_lower "cotton" then get_cotton_schedule
  else if pyContains crop_lower "sugarcane" then get_sugarcane_schedule
  else if pyContains crop_lower "potato" then get_potato_schedule
  else if pyContains crop_lower "tomato" then get_tomato_schedule
  else get_default_schedule

/-- The substrings `get_application_schedule` dispatches on. -/
def cropPatterns : List String :=
  [ "rice", "paddy", "wheat", "maize", "corn", "cotton", "sugarcane", "potato", "tomato"]

/-! ## Helper lemmas: rounding -/

/-- Compute `roundHalfEven` when the fractional part is below one half. -/
theorem roundHalfEven_eq_down (q : ℚ) (f : ℤ) (h1 : (f : ℚ) ≤ q)
    (h2 : q - f < 1 / 2) : roundHalfEven q = f := by
  have hfl : ⌊q⌋ = f := by
    rw [Int.floor_eq_iff]
    exact ⟨h1, by linarith⟩
  unfold roundHalfEven
  rw [hfl, if_pos h2]

/-- Compute `roundHalfEven` when the fractional part is above one half. -/
theorem roundHalfEven_eq_up (q : ℚ) (f : ℤ) (h1 : (f : ℚ) ≤ q)
    (h2 : q < (f : ℚ) + 1) (h3 : 1 / 2 < q - f) : roundHalfEven q = f + 1 := by
  have hfl : ⌊q⌋ = f := by
    rw [Int.floor_eq_iff]
    exact ⟨h1, by linarith⟩
  unfold roundHalfEven
  rw [hfl, if_neg (by linarith), if_pos h3]

/-- Compute `round2` when the second decimal rounds down. -/
theorem round2_eq_down (q : ℚ) (f : ℤ) (h1 : (f : ℚ) ≤ q * 100)
    (h2 : q * 100 - f < 1 / 2) : round2 q = (f : ℚ) / 100 := by
  rw [round2, roundHalfEven_eq_down (q * 100) f h1 h2]

/-- Compute `round2` when the second decimal rounds up. -/
theorem round2_eq_up (q : ℚ) (f : ℤ) (h1 : (f : ℚ) ≤ q * 100)
    (h2 : q * 100 < (f : ℚ) + 1) (h3 : 1 / 2 < q * 100 - f) :
    round2 q = ((f : ℚ) + 1) / 100 := by
  rw [round2, roundHalfEven_eq_up (q * 100) f h1 h2 h3]
  push_cast
  ring

/-- The rounding helper is nonnegative on nonnegative inputs. -/
theorem roundHalfEven_nonneg (q : ℚ) (h : 0 ≤ q) : 0 ≤ roundHalfEven q := by
  have h0 : (0 : ℤ) ≤ ⌊q⌋ := Int.floor_nonneg.mpr h
  unfold roundHalfEven
  split
  · exact h0
  · split
    · omega
    · split <;> omega

/-- Two-decimal rounding is nonnegative on nonnegative inputs. -/
theorem round2_nonneg (q : ℚ) (h : 0 ≤ q) : 0 ≤ round2 q := by
  have h1 := roundHalfEven_nonneg (q * 100) (by positivity)
  have h2 : (0 : ℚ) ≤ (roundHalfEven (q * 100) : ℚ) := by exact_mod_cast h1
  rw [round2]
  exact div_nonneg h2 (by norm_num)

/-! ## Helper lemmas: catalog lookups -/

/-- The DAP lookup finds the catalog's DAP product. -/
theorem dapProduct_eq :
    dapProduct = mkFertilizer "DAP (Diammonium Phosphate)" 18 46 0 27 := rfl

/-- The MOP lookup finds the catalog's MOP product. -/
theorem mopProduct_eq :
    mopProduct = mkFertilizer "MOP (Muriate of Potash)" 0 0 60 17 := rfl

/-- The Urea lookup finds the catalog's Urea product. -/
theorem ureaProduct_eq : ureaProduct = mkFertilizer "Urea" 46 0 0 6 := rfl

/-- Closed form of the nitrogen contributed by the DAP step. -/
theorem n_from_dap_eq (p : ℚ) : n_from_dap p = p / (46 / 100) * (18 / 100) := by
  simp [n_from_dap, dap_needed_kg, dapProduct_eq, mkFertilizer]

/-! ## Claim theorems -/

/-- Claim C1: on required_n=120, required_p=60, required_k=30,
field_area=1.0 the allocation engine emits exactly the three line items
DAP, MOP, Urea in that order, with per-hectare quantities 130.43, 50 and
209.83 after two-decimal rounding, and the DAP step contributes 23.48 kg
nitrogen (after two-decimal rounding). -/
theorem scenario_a_allocation :
    (recommend_fertilizers 120 60 30 1).fertilizers.map
        (fun i => (i.fertilizer, i.quantity_kg_per_hectare)) =
      [( "DAP (Diammonium Phosphate)", 13043 / 100), ( "MOP (Muriate of Potash)", 50),
        ( "Urea", 20983 / 100)] ∧
    round2 (n_from_dap 60) = 2348 / 100 := by
  constructor
  · have hp : (0 : ℚ) < 60 := by norm_num
    have hk : (0 : ℚ) < 30 := by norm_num
    have hna : n_after_dap 120 60 = 2220 / 23 := by
      rw [n_after_dap, if_pos hp, n_from_dap_eq]; norm_num
    have hn : 0 < n_after_dap 120 60 := by rw [hna]; norm_num
    simp only [recommend_fertilizers, if_pos hp, if_pos hk, if_pos hn,
      List.map_append, List.map_cons, List.map_nil, hna,
      dap_needed_kg, dapProduct_eq, mopProduct_eq, ureaProduct_eq, mkFertilizer]
    norm_num
    refine ⟨?_, ?_, ?_⟩
    · rw [round2_eq_down (3000 / 23) 13043 (by norm_num) (by norm_num)]
      norm_num
    · rw [round2_eq_down 50 5000 (by norm_num) (by norm_num)]
      norm_num
    · rw [round2_eq_up (111000 / 529) 20982 (by norm_num) (by norm_num) (by norm_num)]
      norm_num
  · rw [n_from_dap_eq]
    norm_num
    rw [round2_eq_up (540 / 23) 2347 (by norm_num) (by norm_num) (by norm_num)]
    norm_num

/-- Claim C3: for nonnegative requirements, the engine emits a DAP item iff
required_p > 0, an MOP item iff required_k > 0, and a Urea item iff the
nitrogen remaining after the DAP step is positive; a nutrient that is
exactly 0 therefore yields no line item. -/
theorem engine_skips_zero_nutrients (n p k a : ℚ)
    (hn : 0 ≤ n) (hp : 0 ≤ p) (hk : 0 ≤ k) :
    ((∃ i ∈ (recommend_fertilizers n p k a).fertilizers,
        i.fertilizer = "DAP (Diammonium Phosphate)") ↔ 0 < p) ∧
    ((∃ i ∈ (recommend_fertilizers n p k a).fertilizers,
        i.fertilizer = "MOP (Muriate of Potash)") ↔ 0 < k) ∧
    ((∃ i ∈ (recommend_fertilizers n p k a).fertilizers,
        i.fertilizer = "Urea") ↔ 0 < n_after_dap n p) := by
  unfold recommend_fertilizers
  by_cases hp' : 0 < p <;> by_cases hk' : 0 < k <;>
    by_cases hn' : 0 < n_after_dap n p <;>
      simp [hp', hk', hn']

/-- Claim C3 witness: the three iffs instantiated at the Scenario A input. -/
theorem engine_skips_zero_nutrients_witness :
    ((∃ i ∈ (recommend_fertilizers 120 60 30 1).fertilizers,
        i.fertilizer = "DAP (Diammonium Phosphate)") ↔ (0 : ℚ) < 60) ∧
    ((∃ i ∈ (recommend_fertilizers 120 60 30 1).fertilizers,
        i.fertilizer = "MOP (Muriate of Potash)") ↔ (0 : ℚ) < 30) ∧
    ((∃ i ∈ (recommend_fertilizers 120 60 30 1).fertilizers,
        i.fertilizer = "Urea") ↔ 0 < n_after_dap 120 60) :=
  engine_skips_zero_nutrients 120 60 30 1 (by norm_num) (by norm_num) (by norm_num)

/-- Claim C4 counterexample: at required_n = 0, required_p = 46 the DAP
step contributes 18 kg nitrogen, which is not ≤ the 0 kg requested, so the
claim's bound "nitrogen contributed by the phosphorus product ≤ total
nitrogen requested" is false. -/
theorem dap_nitrogen_bound_counterexample :
    (0 : ℚ) < 46 ∧ ¬n_from_dap 46 ≤ 0 := by
  constructor
  · norm_num
  · rw [n_from_dap_eq]
    norm_num

/-- Claim C4 (amended): when the DAP step's nitrogen contribution reaches or
exceeds the requested nitrogen, the engine emits no Urea line item, and no
emitted line item carries a negative quantity. -/
theorem dap_nitrogen_overshoot_safe (n p k a : ℚ)
    (hn : 0 ≤ n) (hp : 0 < p) (hk : 0 ≤ k) (ha : 0 ≤ a)
    (hex : n ≤ n_from_dap p) :
    (∀ i ∈ (recommend_fertilizers n p k a).fertilizers, ¬i.fertilizer = "Urea") ∧
    ∀ i ∈ (recommend_fertilizers n p k a).fertilizers,
      0 ≤ i.quantity_kg_per_hectare ∧ 0 ≤ i.quantity_kg_per_acre ∧
        0 ≤ i.quantity_total := by
  have hna : ¬0 < n_after_dap n p := by
    rw [n_after_dap, if_pos hp]
    linarith
  have hdn : 0 ≤ dap_needed_kg p := by
    rw [dap_needed_kg, dapProduct_eq]
    exact div_nonneg hp.le (by norm_num [mkFertilizer])
  have hmn : 0 ≤ k / mopProduct.k_percent := by
    rw [mopProduct_eq]
    exact div_nonneg hk (by norm_num [mkFertilizer])
  simp only [recommend_fertilizers, if_pos hp, if_neg hna]
  by_cases hk' : 0 < k
  · simp only [hk', if_true, List.append_nil, List.mem_append, List.mem_cons,
      List.not_mem_nil, or_false]
    constructor
    · rintro i (rfl | rfl) <;> simp
    · rintro i (rfl | rfl)
      · exact ⟨round2_nonneg _ hdn,
          round2_nonneg _ (mul_nonneg hdn (by norm_num)),
          round2_nonneg _ (mul_nonneg hdn ha)⟩
      · exact ⟨round2_nonneg _ hmn,
          round2_nonneg _ (mul_nonneg hmn (by norm_num)),
          round2_nonneg _ (mul_nonneg hmn ha)⟩
  · simp only [hk', if_false, List.append_nil, List.mem_append, List.mem_cons,
      List.not_mem_nil, or_false]
    constructor
    · rintro i rfl
      simp
    · rintro i rfl
      exact ⟨round2_nonneg _ hdn,
        round2_nonneg _ (mul_nonneg hdn (by norm_num)),
        round2_nonneg _ (mul_nonneg hdn ha)⟩

/-- Claim C4 witness: the amended theorem applied at required_n = 10,
required_p = 46, required_k = 0, field_area = 1 (DAP contributes 18 ≥ 10). -/
theorem dap_nitrogen_overshoot_safe_witness :
    (∀ i ∈ (recommend_fertilizers 10 46 0 1).fertilizers, ¬i.fertilizer = "Urea") ∧
    ∀ i ∈ (recommend_fertilizers 10 46 0 1).fertilizers,
      0 ≤ i.quantity_kg_per_hectare ∧ 0 ≤ i.quantity_kg_per_acre ∧
        0 ≤ i.quantity_total :=
  dap_nitrogen_overshoot_safe 10 46 0 1 (by norm_num) (by norm_num) (by norm_num)
    (by norm_num) (by rw [n_from_dap_eq]; norm_num)

/-! ## Helper lemmas: the repricing loop -/

/-- The repricing loop unrolled: it appends the repriced items to the
accumulator and adds up the per-item contributions. -/
theorem reprice_foldl (items : List LineItem) (acc : List PricedItem × ℚ) :
    items.foldl repriceStep acc =
      (acc.1 ++ items.map repriceItem,
        acc.2 + (items.map repriceContribution).sum) := by
  induction items generalizing acc with
  | nil => simp
  | cons x xs ih =>
      simp [repriceStep, ih, add_assoc]

/-- The item list produced by the repricing loop. -/
theorem repriceItems_fst (items : List LineItem) :
    (repriceItems items).1 = items.map repriceItem := by
  rw [repriceItems, reprice_foldl]
  simp

/-- The running total produced by the repricing loop. -/
theorem repriceItems_snd (items : List LineItem) :
    (repriceItems items).2 = (items.map repriceContribution).sum := by
  rw [repriceItems, reprice_foldl]
  simp

/-- Repricing one item whose base name is in the price table. -/
theorem repriceItem_found (item : LineItem) (entry : PriceEntry)
    (h : lookupPrice (baseName item.fertilizer) = some entry) :
    repriceItem item =
      { fertilizer := item.fertilizer
        quantity_kg_per_hectare := item.quantity_kg_per_hectare
        quantity_kg_per_acre := item.quantity_kg_per_acre
        quantity_total := item.quantity_total
        price_per_50kg := PriceField.num entry.price_per_50kg
        cost := (bags_required item.quantity_total : ℚ) * entry.price_per_50kg
        is_verified := true
        note := none
        application_stage := none } := by
  rw [repriceItem.eq_def, h]

/-- Repricing one item whose base name is not in the price table. -/
theorem repriceItem_notfound (item : LineItem)
    (h : lookupPrice (baseName item.fertilizer) = none) :
    repriceItem item =
      { fertilizer := item.fertilizer
        quantity_kg_per_hectare := item.quantity_kg_per_hectare
        quantity_kg_per_acre := item.quantity_kg_per_acre
        quantity_total := item.quantity_total
        price_per_50kg := PriceField.text "Govt. price not available"
        cost := 0
        is_verified := false
        note := some "Price not verified by Govt of India"
        application_stage := none } := by
  rw [repriceItem.eq_def, h]

/-- A loop iteration's contribution to the running total equals the item's
cost when verified and 0 otherwise. -/
theorem repriceContribution_eq (item : LineItem) :
    repriceContribution item =
      (if (repriceItem item).is_verified then (repriceItem item).cost else 0) := by
  cases h : lookupPrice (baseName item.fertilizer) with
  | none =>
      rw [repriceContribution.eq_def, h, repriceItem_notfound item h]
      simp
  | some entry =>
      rw [repriceContribution.eq_def, h, repriceItem_found item entry h]
      simp

/-- Summing costs over the verified items equals summing
cost-if-verified-else-0 over all items. -/
theorem sum_filter_verified (l : List PricedItem) :
    ((l.filter (fun pi => pi.is_verified)).map (fun pi => pi.cost)).sum =
      (l.map (fun pi => if pi.is_verified then pi.cost else 0)).sum := by
  induction l with
  | nil => simp
  | cons x xs ih =>
      by_cases hx : x.is_verified = true <;>
        simp [List.filter_cons, hx, ih]

/-- Claim C2 counterexample: repricing the Scenario F item ( "NPK 29-5-5",
not in the price table) sets the price field to the sentinel
"Govt. price not available", not to the text "price not available" that the
claim states. -/
theorem reprice_sentinel_counterexample :
    lookupPrice (baseName scenario_f_item.fertilizer) = none ∧
    (repriceItems [scenario_f_item]).1.map (fun pi => pi.price_per_50kg) =
      [PriceField.text "Govt. price not available"] ∧
    ¬(repriceItems [scenario_f_item]).1.map (fun pi => pi.price_per_50kg) =
      [PriceField.text "price not available"] := by
  have h : lookupPrice (baseName scenario_f_item.fertilizer) = none := by
    simp [lookupPrice, baseName, scenario_f_item, pyStrip, isSpaceCh,
      FERTILIZER_PRICES_INR, List.find?]
  refine ⟨h, ?_, ?_⟩ <;>
    simp [repriceItems_fst, repriceItem_notfound scenario_f_item h]

/-- Claim C2 (amended): after the repricing pass, every item whose base name
is a key of the verified price table has cost = ceil(quantity_total / 50) ×
price_per_50kg and verified = true; every item whose base name is not a key
carries the sentinel text "Govt. price not available", cost 0 and
verified = false; and the recalculated total equals the sum of cost over
exactly the verified items. -/
theorem reprice_pass_spec (items : List LineItem) :
    (∀ pi ∈ (repriceItems items).1,
      (∀ entry, lookupPrice (baseName pi.fertilizer) = some entry →
        pi.cost = (bags_required pi.quantity_total : ℚ) * entry.price_per_50kg ∧
        pi.price_per_50kg = PriceField.num entry.price_per_50kg ∧
        pi.is_verified = true) ∧
      (lookupPrice (baseName pi.fertilizer) = none →
        pi.price_per_50kg = PriceField.text "Govt. price not available" ∧
        pi.cost = 0 ∧ pi.is_verified = false)) ∧
    (repriceItems items).2 =
      (((repriceItems items).1.filter (fun pi => pi.is_verified)).map
        (fun pi => pi.cost)).sum := by
  constructor
  · intro pi hpi
    rw [repriceItems_fst] at hpi
    obtain ⟨item, _hitem, rfl⟩ := List.mem_map.mp hpi
    cases h : lookupPrice (baseName item.fertilizer) with
    | none =>
        rw [repriceItem_notfound item h]
        exact ⟨fun entry he => absurd (h.symm.trans he) (by simp),
          fun _ => ⟨rfl, rfl, rfl⟩⟩
    | some entry =>
        rw [repriceItem_found item entry h]
        refine ⟨fun e he => ?_, fun hnone => absurd (h.symm.trans hnone) (by simp)⟩
        obtain rfl : entry = e := Option.some.inj (h.symm.trans he)
        exact ⟨rfl, rfl, rfl⟩
  · rw [repriceItems_fst, repriceItems_snd, sum_filter_verified, List.map_map]
    have hfun : repriceContribution =
        (fun pi => if pi.is_verified then pi.cost else 0) ∘ repriceItem := by
      funext item
      exact repriceContribution_eq item
    rw [hfun]

/-- Claim C2 witness: the repricing invariants instantiated on the singleton
list holding the Scenario F item, with the price lookup discharged
concretely. -/
theorem reprice_pass_spec_witness :
    (repriceItems [scenario_f_item]).2 =
      (((repriceItems [scenario_f_item]).1.filter (fun pi => pi.is_verified)).map
        (fun pi => pi.cost)).sum :=
  (reprice_pass_spec [scenario_f_item]).2

/-- Claim C5: the biofertilizer item is appended exactly once, at the end of
the repriced list, iff organic_carbon is known and below 0.75; it carries
quantity 2.0 kg/ha, total 2.0 × field_area, zero cost, verified = false and
the seed-treatment tag; and the recalculated total cost is unaffected by
it. -/
theorem biofertilizer_injection (field_area : ℚ) (oc : Option ℚ)
    (items : List LineItem) :
    ((∃ v, oc = some v ∧ v < 3 / 4) →
      (price_resolution field_area oc items).1 =
        (repriceItems items).1 ++ [biofertilizer_item field_area]) ∧
    ((¬∃ v, oc = some v ∧ v < 3 / 4) →
      (price_resolution field_area oc items).1 = (repriceItems items).1) ∧
    (price_resolution field_area oc items).2.1 = (repriceItems items).2 ∧
    (biofertilizer_item field_area).quantity_kg_per_hectare = 2 ∧
    (biofertilizer_item field_area).quantity_total = 2 * field_area ∧
    (biofertilizer_item field_area).cost = 0 ∧
    (biofertilizer_item field_area).is_verified = false ∧
    (biofertilizer_item field_area).application_stage = some "Seed Treatment" := by
  have hb : biofertilizer_needed oc = true ↔ ∃ v, oc = some v ∧ v < 3 / 4 := by
    cases oc with
    | none => simp [biofertilizer_needed]
    | some v => simp [biofertilizer_needed]
  refine ⟨?_, ?_, rfl, rfl, rfl, rfl, rfl, rfl⟩
  · intro hex
    simp [price_resolution, hb.mpr hex]
  · intro hnex
    cases hbool : biofertilizer_needed oc with
    | true => exact absurd (hb.mp hbool) hnex
    | false => simp [price_resolution, hbool]

/-- Claim C5 witness: the conditional append instantiated at
organic_carbon = 0.4, field_area = 1, empty item list. -/
theorem biofertilizer_injection_witness :
    (price_resolution 1 (some (2 / 5)) []).1 =
      (repriceItems []).1 ++ [biofertilizer_item 1] ∧
    (biofertilizer_item 1).cost = 0 ∧
    (biofertilizer_item 1).is_verified = false :=
  ⟨(biofertilizer_injection 1 (some (2 / 5)) []).1 ⟨2 / 5, rfl, by norm_num⟩,
    (biofertilizer_injection 1 (some (2 / 5)) []).2.2.2.2.2.1,
    (biofertilizer_injection 1 (some (2 / 5)) []).2.2.2.2.2.2.1⟩

/-! ## Helper lemmas: soil improvement -/

/-- Evaluate Python integer truncation at a nonnegative input. -/
theorem pyInt_eval (q : ℚ) (f : ℤ) (h0 : 0 ≤ f) (h1 : (f : ℚ) ≤ q)
    (h2 : q < (f : ℚ) + 1) : pyInt q = f := by
  have hq : 0 ≤ q := le_trans (by exact_mod_cast h0) h1
  rw [pyInt, if_pos hq, Int.floor_eq_iff]
  exact ⟨h1, by linarith⟩

/-- The head of the advisory list is the head of the threshold rules'
output. -/
theorem get_soil_improvements_head (ph : ℚ) (ec oc nn pp kk : Option ℚ)
    (x : SoilImprovement) (rest : List SoilImprovement)
    (h : threshold_improvements ph ec oc pp = x :: rest) :
    (get_soil_improvements ph ec oc nn pp kk).head? = some x := by
  simp only [get_soil_improvements, h]
  split
  · rw [if_neg (by simp), List.cons_append, List.head?_cons]
  · rw [if_neg (by simp), List.head?_cons]

/-- Claim C6 counterexample: at ph = 5.2501 (which is below 5.5) the code's
lime quantity is the truncated 1249, while the claim's formula
clamp(1000 × (6.5 − ph), 500, 3000) yields the non-integer 1249.9. -/
theorem lime_formula_counterexample :
    (52501 / 10000 : ℚ) < 11 / 2 ∧
    ¬((calculate_lime_requirement (52501 / 10000) : ℚ) =
      min (max ((13 / 2 - 52501 / 10000) * 1000) 500) 3000) := by
  have hlime : calculate_lime_requirement (52501 / 10000) = 1249 := by
    simp only [calculate_lime_requirement]
    rw [if_neg (by norm_num),
      pyInt_eval _ 1249 (by norm_num) (by norm_num) (by norm_num)]
    decide
  have hmax : max ((13 / 2 - 52501 / 10000 : ℚ) * 1000) 500 = 12499 / 10 := by
    rw [max_eq_left (by norm_num)]
    norm_num
  have hmin : min (12499 / 10 : ℚ) 3000 = 12499 / 10 :=
    min_eq_left (by norm_num)
  refine ⟨by norm_num, ?_⟩
  rw [hlime, hmax, hmin]
  norm_num

/-- Claim C6 (amended): for ph < 5.5 the advisor appends (first) a lime
record whose quantity is clamp(trunc(1000 × (6.5 − ph)), 500, 3000) kg/ha,
and for ph > 7.5 it appends (first) a gypsum record whose quantity is
750 kg/ha for ph > 8.5, 500 for 8.0 < ph ≤ 8.5 and 350 otherwise. -/
theorem ph_amendment_rules (ph : ℚ) (ec oc nn pp kk : Option ℚ) :
    (ph < 11 / 2 →
      calculate_lime_requirement ph =
        min (max (pyInt ((13 / 2 - ph) * 1000)) 500) 3000 ∧
      (get_soil_improvements ph ec oc nn pp kk).head? = some (lime_improvement ph)) ∧
    (15 / 2 < ph →
      calculate_gypsum_requirement ph =
        (if 17 / 2 < ph then 750 else if 8 < ph then 500 else 350) ∧
      (get_soil_improvements ph ec oc nn pp kk).head? =
        some (gypsum_improvement ph)) := by
  constructor
  · intro hph
    constructor
    · simp only [calculate_lime_requirement]
      rw [if_neg (by linarith)]
    · obtain ⟨rest, hrest⟩ :
          ∃ rest, threshold_improvements ph ec oc pp = lime_improvement ph :: rest :=
        ⟨_, by
          simp only [threshold_improvements, if_pos hph, List.singleton_append,
            List.cons_append]
          rfl⟩
      exact get_soil_improvements_head ph ec oc nn pp kk _ _ hrest
  · intro hph
    have hph' : ¬ph < 11 / 2 := by linarith
    constructor
    · simp only [calculate_gypsum_requirement]
      rw [if_neg (by linarith)]
    · obtain ⟨rest, hrest⟩ :
          ∃ rest, threshold_improvements ph ec oc pp = gypsum_improvement ph :: rest :=
        ⟨_, by
          simp only [threshold_improvements, if_neg hph', if_pos hph,
            List.singleton_append, List.cons_append]
          rfl⟩
      exact get_soil_improvements_head ph ec oc nn pp kk _ _ hrest

/-- Claim C6 witness: Scenario B (ph = 5.0, lime) and Scenario C (ph = 8.8,
gypsum) instantiations. -/
theorem ph_amendment_rules_witness :
    (calculate_lime_requirement 5 =
      min (max (pyInt ((13 / 2 - 5) * 1000)) 500) 3000 ∧
    (get_soil_improvements 5 none none none none none).head? =
      some (lime_improvement 5)) ∧
    (calculate_gypsum_requirement (44 / 5) =
      (if (17 / 2 : ℚ) < 44 / 5 then 750 else if (8 : ℚ) < 44 / 5 then 500 else 350) ∧
    (get_soil_improvements (44 / 5) none none none none none).head? =
      some (gypsum_improvement (44 / 5))) :=
  ⟨(ph_amendment_rules 5 none none none none none).1 (by norm_num),
    (ph_amendment_rules (44 / 5) none none none none none).2 (by norm_num)⟩

/-- No record produced by the threshold rules is the green-manure record or
the maintenance record (their issue strings are distinct from all rule
records). -/
theorem threshold_issues (ph : ℚ) (ec oc pp : Option ℚ) :
    ∀ x ∈ threshold_improvements ph ec oc pp,
      ¬x.issue = "Multiple Soil Health Issues" ∧
        ¬x.issue = "Soil Health Maintenance" := by
  intro x hx
  rcases oc with _ | v <;> rcases pp with _ | w <;>
    simp only [threshold_improvements, List.mem_append] at hx <;>
      rcases hx with ((h | h) | h) | h <;>
        (repeat' split at h) <;>
          simp only [List.mem_singleton, List.not_mem_nil] at h <;>
            first
              | exact h.elim
              | (subst h
                 constructor <;>
                   simp [lime_improvement, gypsum_improvement, salinity_improvement,
                     low_oc_improvement, moderate_oc_improvement, low_p_improvement])

/-- Claim C7: the advisor appends the green-manure advisory iff at least two
improvements were accumulated by the threshold rules, appends the generic
maintenance advisory iff no threshold rule triggered, and never returns an
empty list. -/
theorem green_manure_and_fallback (ph : ℚ) (ec oc nn pp kk : Option ℚ) :
    (green_manure_improvement ∈ get_soil_improvements ph ec oc nn pp kk ↔
      2 ≤ (threshold_improvements ph ec oc pp).length) ∧
    (maintenance_improvement ∈ get_soil_improvements ph ec oc nn pp kk ↔
      threshold_improvements ph ec oc pp = []) ∧
    ¬get_soil_improvements ph ec oc nn pp kk = [] := by
  have hni := threshold_issues ph ec oc pp
  have hgm : green_manure_improvement ∉ threshold_improvements ph ec oc pp :=
    fun hmem => (hni _ hmem).1 rfl
  have hmm : maintenance_improvement ∉ threshold_improvements ph ec oc pp :=
    fun hmem => (hni _ hmem).2 rfl
  have hne : ¬maintenance_improvement = green_manure_improvement := by
    simp [green_manure_improvement, maintenance_improvement]
  simp only [get_soil_improvements]
  by_cases h2 : 2 ≤ (threshold_improvements ph ec oc pp).length
  · rw [if_pos h2, if_neg (by simp)]
    refine ⟨iff_of_true (List.mem_append.mpr (Or.inr (by simp))) h2, ?_, by simp⟩
    refine iff_of_false ?_ ?_
    · intro hmem
      rcases List.mem_append.mp hmem with h | h
      · exact hmm h
      · exact hne (by simpa using h)
    · intro hempty
      rw [hempty] at h2
      simp at h2
  · rw [if_neg h2]
    by_cases hempty : threshold_improvements ph ec oc pp = []
    · rw [if_pos hempty]
      refine ⟨iff_of_false ?_ h2, iff_of_true (by simp) hempty, by simp⟩
      intro hmem
      exact hne (List.mem_singleton.mp hmem).symm
    · rw [if_neg hempty]
      exact ⟨iff_of_false hgm h2, iff_of_false hmm hempty, hempty⟩

/-- Claim C8: any crop whose lower-cased name contains none of the dispatch
substrings falls back to the generic 3-stage schedule (100% P and K at
basal, then a 50/50 nitrogen split at 3-4 and 6-7 weeks); "Basmati Rice"
dispatches to the rice schedule, which differs from the fallback. -/
theorem crop_schedule_dispatch (crop : String) (tn tp tk tn2 tp2 tk2 : ℚ)
    (h : ∀ pat ∈ cropPatterns, pyContains (pyLower crop) pat = false) :
    get_application_schedule crop tn tp tk = get_default_schedule ∧
    get_application_schedule "Basmati Rice" tn2 tp2 tk2 = get_rice_schedule ∧
    ¬get_rice_schedule = get_default_schedule ∧
    get_default_schedule.map (fun s => (s.time, s.quantity_percent)) =
      [( "Day 0", 100), ( "3-4 weeks after planting", 50),
        ( "6-7 weeks after planting", 50)] := by
  refine ⟨?_, rfl, ?_, rfl⟩
  · simp only [get_application_schedule,
      h "rice" (by simp [cropPatterns]), h "paddy" (by simp [cropPatterns]),
      h "wheat" (by simp [cropPatterns]), h "maize" (by simp [cropPatterns]),
      h "corn" (by simp [cropPatterns]), h "cotton" (by simp [cropPatterns]),
      h "sugarcane" (by simp [cropPatterns]), h "potato" (by simp [cropPatterns]),
      h "tomato" (by simp [cropPatterns]),
      Bool.or_self, Bool.false_eq_true, if_false]
  · simp [get_rice_schedule, get_default_schedule]

/-- Claim C8 witness: "jute" (no substring match) falls back to the generic
schedule, and "Basmati Rice" gets the rice schedule. -/
theorem crop_schedule_dispatch_witness :
    get_application_schedule "jute" 1 2 3 = get_default_schedule ∧
    get_application_schedule "Basmati Rice" 4 5 6 = get_rice_schedule :=
  ⟨(crop_schedule_dispatch "jute" 1 2 3 4 5 6 (by decide)).1,
    (crop_schedule_dispatch "jute" 1 2 3 4 5 6 (by decide)).2.1⟩

/-- Claim C9: the application schedule depends only on the crop name: the
total_n, total_p, total_k arguments never change the returned stages. -/
theorem schedule_ignores_totals (crop : String) (tn tp tk tn2 tp2 tk2 : ℚ) :
    get_application_schedule crop tn tp tk =
      get_application_schedule crop tn2 tp2 tk2 := rfl

/-- Every line item the engine can emit bears one of the three product
display names. -/
theorem engine_item_names (n p k a : ℚ) :
    ∀ item ∈ (recommend_fertilizers n p k a).fertilizers,
      item.fertilizer = "DAP (Diammonium Phosphate)" ∨
      item.fertilizer = "MOP (Muriate of Potash)" ∨
      item.fertilizer = "Urea" := by
  intro item hitem
  simp only [recommend_fertilizers, List.mem_append] at hitem
  rcases hitem with (h | h) | h <;>
    (split at h <;> simp only [List.mem_singleton, List.not_mem_nil] at h) <;>
      first
        | exact h.elim
        | (subst h; simp)

/-- Claim C10: the parenthetical-stripped base name of every engine-emitted
line item is a key of the verified price table, so repricing always takes
the verified branch: every repriced engine item has verified = true and a
numeric price field. -/
theorem engine_items_always_priced (n p k a : ℚ) :
    (∀ item ∈ (recommend_fertilizers n p k a).fertilizers,
      (lookupPrice (baseName item.fertilizer)).isSome = true) ∧
    ∀ pi ∈ (repriceItems (recommend_fertilizers n p k a).fertilizers).1,
      pi.is_verified = true ∧ ∃ q, pi.price_per_50kg = PriceField.num q := by
  have hsome : ∀ item ∈ (recommend_fertilizers n p k a).fertilizers,
      (lookupPrice (baseName item.fertilizer)).isSome = true := by
    intro item hitem
    rcases engine_item_names n p k a item hitem with h | h | h <;> rw [h] <;> rfl
  refine ⟨hsome, ?_⟩
  intro pi hpi
  rw [repriceItems_fst] at hpi
  obtain ⟨item, hitem, rfl⟩ := List.mem_map.mp hpi
  cases hl : lookupPrice (baseName item.fertilizer) with
  | none =>
      have hcontra := hsome item hitem
      rw [hl] at hcontra
      simp at hcontra
  | some entry =>
      rw [repriceItem_found item entry hl]
      exact ⟨rfl, entry.price_per_50kg, rfl⟩

/-- The engine output at required_n = 46, required_p = 0, required_k = 0,
field_area = 1, fully evaluated: a single Urea line item. -/
theorem engine_single_urea :
    (recommend_fertilizers 46 0 0 1).fertilizers =
      [{ fertilizer := "Urea", quantity_kg_per_hectare := 100,
         quantity_kg_per_acre := 4047 / 100, quantity_total := 100, cost := 600 }] := by
  have hz : ¬(0 : ℚ) < 0 := by norm_num
  have hna : n_after_dap 46 0 = 46 := by rw [n_after_dap, if_neg hz]
  have hpos : 0 < n_after_dap 46 0 := by rw [hna]; norm_num
  simp only [recommend_fertilizers, if_neg hz, if_pos hpos, hna,
    ureaProduct_eq, mkFertilizer, List.nil_append]
  norm_num
  rw [round2_eq_down 100 10000 (by norm_num) (by norm_num),
    round2_eq_down (4047 / 100) 4047 (by norm_num) (by norm_num),
    round2_eq_down 600 60000 (by norm_num) (by norm_num)]
  norm_num

/-- Claim C10 witness: the engine item emitted at (46, 0, 0, 1) has a base
name in the price table and its repriced form is verified. -/
theorem engine_items_always_priced_witness :
    (lookupPrice (baseName "Urea")).isSome = true ∧
    (repriceItem ({ fertilizer := "Urea"
                    quantity_kg_per_hectare := 100
                    quantity_kg_per_acre := 4047 / 100
                    quantity_total := 100
                    cost := 600 } : LineItem)).is_verified = true := by
  constructor
  · exact (engine_items_always_priced 46 0 0 1).1 _
      (by rw [engine_single_urea]; exact List.mem_singleton.mpr rfl)
  · exact ((engine_items_always_priced 46 0 0 1).2 _
      (by
        rw [repriceItems_fst, engine_single_urea]
        exact List.mem_map.mpr ⟨_, List.mem_singleton.mpr rfl, rfl⟩)).1

end SoilSense
